import Mathlib

/-!
Verification of the minitorch dataset generator (`minitorch/datasets.py`).

Modelling choices for the shallow embedding:
* Python floats are modelled as rationals `ℚ`; every constant in the source
  (0.5, 0.2, 0.8, 0.1, 10.0, 20.0) is exactly representable.
* The process-wide pseudorandom source (`random.random()`, values in `[0,1)`)
  is modelled as a stream `r : ℕ → ℚ`; a call of `make_pts` reads the stream
  sequentially, two values per point.
* `math.cos` and `math.sin` are transcendental, so they are carried as
  abstract parameters `c s : ℚ → ℚ` of the spiral construction; every claim
  about the spiral is structural and holds for all interpretations.
* Python `int` is `ℤ`; Python floor division `//` is `Int.fdiv`;
  `range(n)` iterates `n.toNat` times (empty for negative `n`).
* The registry dictionary becomes a lookup returning `Option`; `none` models
  the `KeyError` raised on an unknown name.
-/

namespace Minitorch

/-- A sampled point: two coordinates, `(x_1, x_2)` in the source. -/
abbrev Point := ℚ × ℚ

/-- Embeds `make_pts`: for `i in range(N)`, draw `x_1` and `x_2` from the
process-wide random source (stream `r`, consumed two values per point). -/
def make_pts (r : ℕ → ℚ) (N : ℤ) : List Point :=
  (List.range N.toNat).map (fun i => (r (2 * i), r (2 * i + 1)))

/-- Embeds the dataclass `Graph` with fields `N`, `X`, `y`. -/
structure Graph where
  N : ℤ
  X : List Point
  y : List ℤ
  deriving Repr, DecidableEq

/-- Labelling line of `simple`: `y1 = 1 if x_1 < 0.5 else 0`. -/
def simple_label (p : Point) : ℤ :=
  if p.1 < 0.5 then 1 else 0

/-- Embeds `simple`: sample `N` points, label each by `simple_label`. -/
def simple (r : ℕ → ℚ) (N : ℤ) : Graph :=
  let X := make_pts r N
  { N := N, X := X, y := X.map simple_label }

/-- Labelling line of `diag`: `y1 = 1 if x_1 < x_2 else 0`. -/
def diag_label (p : Point) : ℤ :=
  if p.1 < p.2 then 1 else 0

/-- Embeds `diag`. -/
def diag (r : ℕ → ℚ) (N : ℤ) : Graph :=
  let X := make_pts r N
  { N := N, X := X, y := X.map diag_label }

/-- Labelling line of `split`: `y1 = 1 if x_1 < 0.2 or x_1 > 0.8 else 0`. -/
def split_label (p : Point) : ℤ :=
  if p.1 < 0.2 ∨ p.1 > 0.8 then 1 else 0

/-- Embeds `split`. -/
def split (r : ℕ → ℚ) (N : ℤ) : Graph :=
  let X := make_pts r N
  { N := N, X := X, y := X.map split_label }

/-- Labelling line of `xor`:
`y1 = 1 if ((x_1 < 0.5 and x_2 > 0.5) or (x_1 > 0.5 and x_2 < 0.5)) else 0`. -/
def xor_label (p : Point) : ℤ :=
  if (p.1 < 0.5 ∧ p.2 > 0.5) ∨ (p.1 > 0.5 ∧ p.2 < 0.5) then 1 else 0

/-- Embeds `xor`. -/
def xor (r : ℕ → ℚ) (N : ℤ) : Graph :=
  let X := make_pts r N
  { N := N, X := X, y := X.map xor_label }

/-- Labelling lines of `circle`: `x1, x2 = (x_1 - 0.5, x_2 - 0.5)` then
`y1 = 1 if x1 * x1 + x2 * x2 > 0.1 else 0`. -/
def circle_label (p : Point) : ℤ :=
  let x1 := p.1 - 0.5
  let x2 := p.2 - 0.5
  if x1 * x1 + x2 * x2 > 0.1 then 1 else 0

/-- Embeds `circle`. -/
def circle (r : ℕ → ℚ) (N : ℤ) : Graph :=
  let X := make_pts r N
  { N := N, X := X, y := X.map circle_label }

/-- Inner function `x` of `spiral` (called `sx` in the spec):
`t * math.cos(t) / 20.0`, with `math.cos` abstracted as `c`. -/
def sx (c : ℚ → ℚ) (t : ℚ) : ℚ :=
  t * c t / 20.0

/-- Inner function `y` of `spiral` (called `sy` in the spec):
`t * math.sin(t) / 20.0`, with `math.sin` abstracted as `s`. -/
def sy (s : ℚ → ℚ) (t : ℚ) : ℚ :=
  t * s t / 20.0

/-- Embeds `spiral`: two list comprehensions over `range(5 + 0, 5 + N // 2)`
(index `i = 5 + j` for `j` below `(N // 2).toNat`), each point's parameter
being `±10.0 * (float(i) / (N // 2))`, then labels `[0] * (N // 2) + [1] * (N // 2)`.
The random stream `r` is accepted (the Python function can read the global
source) but never used. -/
def spiral (c s : ℚ → ℚ) (r : ℕ → ℚ) (N : ℤ) : Graph :=
  let armA : List Point := (List.range (N.fdiv 2).toNat).map (fun j =>
    (sx c (10.0 * (((5 + j : ℕ) : ℚ) / ((N.fdiv 2 : ℤ) : ℚ))) + 0.5,
     sy s (10.0 * (((5 + j : ℕ) : ℚ) / ((N.fdiv 2 : ℤ) : ℚ))) + 0.5))
  let armB : List Point := (List.range (N.fdiv 2).toNat).map (fun j =>
    (sy s (-10.0 * (((5 + j : ℕ) : ℚ) / ((N.fdiv 2 : ℤ) : ℚ))) + 0.5,
     sx c (-10.0 * (((5 + j : ℕ) : ℚ) / ((N.fdiv 2 : ℤ) : ℚ))) + 0.5))
  { N := N
    X := armA ++ armB
    y := List.replicate (N.fdiv 2).toNat 0 ++ List.replicate (N.fdiv 2).toNat 1 }

/-- Embeds the module-level dictionary `datasets`; lookup of a key absent
from the six entries returns `none` (Python raises `KeyError`). -/
def datasets (c s : ℚ → ℚ) (name : String) : Option ((ℕ → ℚ) → ℤ → Graph) :=
  if name = "Simple" then some simple
  else if name = "Diag" then some diag
  else if name = "Split" then some split
  else if name = "Xor" then some xor
  else if name = "Circle" then some circle
  else if name = "Spiral" then some (spiral c s)
  else none

/-- Concrete random stream used in witnesses: every draw is `0 ∈ [0,1)`. -/
def zeroStream : ℕ → ℚ := fun _ => 0

/-- Concrete interpretation of `cos`/`sin` used in witnesses. -/
def zeroFun : ℚ → ℚ := fun _ => 0

/-! ## Theorems -/

theorem make_pts_length (r : ℕ → ℚ) (N : ℤ) : (make_pts r N).length = N.toNat := by
  simp [make_pts]

theorem make_pts_coords (r : ℕ → ℚ) (N : ℤ) (hr : ∀ n, 0 ≤ r n ∧ r n < 1) :
    ∀ p ∈ make_pts r N, (0 ≤ p.1 ∧ p.1 < 1) ∧ (0 ≤ p.2 ∧ p.2 < 1) := by
  intro p hp
  simp only [make_pts, List.mem_map, List.mem_range] at hp
  obtain ⟨i, -, rfl⟩ := hp
  exact ⟨⟨(hr (2 * i)).1, (hr (2 * i)).2⟩, ⟨(hr (2 * i + 1)).1, (hr (2 * i + 1)).2⟩⟩

theorem map_label01 {f : Point → ℤ} (hf : ∀ p, f p = 0 ∨ f p = 1) (X : List Point) :
    ∀ l ∈ X.map f, l = 0 ∨ l = 1 := by
  intro l hl
  simp only [List.mem_map] at hl
  obtain ⟨p, -, rfl⟩ := hl
  exact hf p

theorem simple_label01 (p : Point) : simple_label p = 0 ∨ simple_label p = 1 := by
  unfold simple_label; split <;> simp

theorem diag_label01 (p : Point) : diag_label p = 0 ∨ diag_label p = 1 := by
  unfold diag_label; split <;> simp

theorem split_label01 (p : Point) : split_label p = 0 ∨ split_label p = 1 := by
  unfold split_label; split <;> simp

theorem xor_label01 (p : Point) : xor_label p = 0 ∨ xor_label p = 1 := by
  unfold xor_label; split <;> simp

theorem circle_label01 (p : Point) : circle_label p = 0 ∨ circle_label p = 1 := by
  simp only [circle_label]; split <;> simp

/-- C2: for each of the five predicate generators, re-running the spec
table's predicate on the returned points reproduces the returned labels
(in order), so `labels[i]` equals the predicate applied to `points[i]`. -/
theorem C2_labels_reproduce_predicates (r : ℕ → ℚ) (N : ℤ) :
    (simple r N).y = (simple r N).X.map (fun p => if p.1 < 0.5 then 1 else 0) ∧
    (diag r N).y = (diag r N).X.map (fun p => if p.1 < p.2 then 1 else 0) ∧
    (split r N).y = (split r N).X.map (fun p => if p.1 < 0.2 ∨ p.1 > 0.8 then 1 else 0) ∧
    (xor r N).y = (xor r N).X.map
      (fun p => if (p.1 < 0.5 ∧ p.2 > 0.5) ∨ (p.1 > 0.5 ∧ p.2 < 0.5) then 1 else 0) ∧
    (circle r N).y = (circle r N).X.map
      (fun p => if (p.1 - 0.5) * (p.1 - 0.5) + (p.2 - 0.5) * (p.2 - 0.5) > 0.1 then 1 else 0) :=
  ⟨rfl, rfl, rfl, rfl, rfl⟩

/-- C6: for `N = 0`, every one of the six generators returns a dataset with
0 points and 0 labels; for `spiral`, `half = 0` and both arms are empty. -/
theorem C6_empty_at_zero (c s : ℚ → ℚ) (r : ℕ → ℚ) :
    (simple r 0).X = [] ∧ (simple r 0).y = [] ∧
    (diag r 0).X = [] ∧ (diag r 0).y = [] ∧
    (split r 0).X = [] ∧ (split r 0).y = [] ∧
    (xor r 0).X = [] ∧ (xor r 0).y = [] ∧
    (circle r 0).X = [] ∧ (circle r 0).y = [] ∧
    ((0 : ℤ).fdiv 2).toNat = 0 ∧
    (spiral c s r 0).X = [] ∧ (spiral c s r 0).y = [] :=
  ⟨rfl, rfl, rfl, rfl, rfl, rfl, rfl, rfl, rfl, rfl, rfl, rfl, rfl⟩

/-- C7: `spiral` never reads the random source: for any two random streams,
the same `N` yields identical results (points, labels and count). -/
theorem C7_spiral_ignores_randomness (c s : ℚ → ℚ) (r₁ r₂ : ℕ → ℚ) (N : ℤ) :
    spiral c s r₁ N = spiral c s r₂ N :=
  rfl

/-- C9: for `N = 0` and `N = 1`, `half = N // 2 = 0`, so both arm
comprehensions iterate over an empty range: the division `float(i) / (N // 2)`
is never evaluated (the result does not depend on the interpretation of
`cos` and `sin` it would feed) and the call returns an empty dataset instead
of failing with a division-by-zero error. -/
theorem C9_division_unreachable (c s c' s' : ℚ → ℚ) (r : ℕ → ℚ) :
    List.range ((0 : ℤ).fdiv 2).toNat = [] ∧
    List.range ((1 : ℤ).fdiv 2).toNat = [] ∧
    (spiral c s r 0).X = [] ∧ (spiral c s r 0).y = [] ∧
    (spiral c s r 1).X = [] ∧ (spiral c s r 1).y = [] ∧
    spiral c s r 0 = spiral c' s' r 0 ∧
    spiral c s r 1 = spiral c' s' r 1 :=
  ⟨rfl, rfl, rfl, rfl, rfl, rfl, rfl, rfl⟩

/-- C1: for every `N ≥ 0` and each of the five predicate generators, the
dataset has exactly `N` points and exactly `N` labels, every label is 0 or 1,
and (with the random source producing values in `[0,1)`) both coordinates of
every point lie in `[0,1)`; in particular `make_pts N` has length exactly `N`. -/
theorem C1_sizes_labels_bounds (r : ℕ → ℚ) (N : ℤ)
    (hr : ∀ n, 0 ≤ r n ∧ r n < 1) (hN : 0 ≤ N) :
    ((make_pts r N).length : ℤ) = N ∧
    ∀ G ∈ [simple r N, diag r N, split r N, xor r N, circle r N],
      (G.X.length : ℤ) = N ∧ (G.y.length : ℤ) = N ∧
      (∀ l ∈ G.y, l = 0 ∨ l = 1) ∧
      ∀ p ∈ G.X, (0 ≤ p.1 ∧ p.1 < 1) ∧ (0 ≤ p.2 ∧ p.2 < 1) := by
  have hmk : ((make_pts r N).length : ℤ) = N := by
    rw [make_pts_length]; exact Int.toNat_of_nonneg hN
  refine ⟨hmk, ?_⟩
  intro G hG
  have hco := make_pts_coords r N hr
  simp only [List.mem_cons, List.not_mem_nil, or_false] at hG
  rcases hG with rfl | rfl | rfl | rfl | rfl
  · exact ⟨hmk, by simpa [simple] using hmk, map_label01 simple_label01 _, hco⟩
  · exact ⟨hmk, by simpa [diag] using hmk, map_label01 diag_label01 _, hco⟩
  · exact ⟨hmk, by simpa [split] using hmk, map_label01 split_label01 _, hco⟩
  · exact ⟨hmk, by simpa [xor] using hmk, map_label01 xor_label01 _, hco⟩
  · exact ⟨hmk, by simpa [circle] using hmk, map_label01 circle_label01 _, hco⟩

/-- Witness for C1 at the zero stream and `N = 2`. -/
theorem C1_sizes_labels_bounds_witness :
    (∀ n, 0 ≤ zeroStream n ∧ zeroStream n < 1) ∧ ((0 : ℤ) ≤ 2) ∧
    ((make_pts zeroStream 2).length : ℤ) = 2 ∧
    ((simple zeroStream 2).X.length : ℤ) = 2 ∧
    ((circle zeroStream 2).y.length : ℤ) = 2 := by
  have hr : ∀ n, 0 ≤ zeroStream n ∧ zeroStream n < 1 :=
    fun n => ⟨by show (0:ℚ) ≤ 0; decide, by show (0:ℚ) < 1; decide⟩
  have h := C1_sizes_labels_bounds zeroStream 2 hr (by decide)
  exact ⟨hr, by decide, h.1, (h.2 (simple zeroStream 2) (by simp)).1,
    (h.2 (circle zeroStream 2) (by simp)).2.1⟩

/-- C4: every generator returns as many points as labels; for the five
predicate generators this common length is the stored count `N`, while for
`spiral` the produced size is `2 * (N // 2)` (with the stored count field
still the requested `N`), so for odd `N` the stored count exceeds the
produced size by one. -/
theorem C4_points_labels_count (c s : ℚ → ℚ) (r : ℕ → ℚ) (N : ℤ) (hN : 0 ≤ N) :
    (∀ G ∈ [simple r N, diag r N, split r N, xor r N, circle r N],
      G.X.length = G.y.length ∧ G.N = N ∧ (G.X.length : ℤ) = N) ∧
    (spiral c s r N).X.length = (spiral c s r N).y.length ∧
    (spiral c s r N).N = N ∧
    (spiral c s r N).X.length = 2 * (N.fdiv 2).toNat ∧
    (N % 2 = 1 → (spiral c s r N).N = ((spiral c s r N).X.length : ℤ) + 1) := by
  have hfd : N.fdiv 2 = N / 2 := Int.fdiv_eq_ediv N (by norm_num)
  have hlen : (spiral c s r N).X.length = 2 * (N.fdiv 2).toNat := by
    simp [spiral]; omega
  have hmk : ((make_pts r N).length : ℤ) = N := by
    rw [make_pts_length]; exact Int.toNat_of_nonneg hN
  refine ⟨?_, ?_, rfl, hlen, ?_⟩
  · intro G hG
    simp only [List.mem_cons, List.not_mem_nil, or_false] at hG
    rcases hG with rfl | rfl | rfl | rfl | rfl
    · exact ⟨by simp [simple], rfl, hmk⟩
    · exact ⟨by simp [diag], rfl, hmk⟩
    · exact ⟨by simp [split], rfl, hmk⟩
    · exact ⟨by simp [xor], rfl, hmk⟩
    · exact ⟨by simp [circle], rfl, hmk⟩
  · simp [spiral]
  · intro hodd
    rw [hlen]
    show N = (↑(2 * (N.fdiv 2).toNat) : ℤ) + 1
    rw [hfd]
    omega

/-- Witness for C4 at `N = 7` (odd). -/
theorem C4_points_labels_count_witness :
    ((0 : ℤ) ≤ 7) ∧ ((7 : ℤ) % 2 = 1) ∧
    (simple zeroStream 7).X.length = (simple zeroStream 7).y.length ∧
    (spiral zeroFun zeroFun zeroStream 7).X.length = 6 ∧
    (spiral zeroFun zeroFun zeroStream 7).N = 7 ∧
    (spiral zeroFun zeroFun zeroStream 7).N =
      ((spiral zeroFun zeroFun zeroStream 7).X.length : ℤ) + 1 := by
  have h := C4_points_labels_count zeroFun zeroFun zeroStream 7 (by decide)
  exact ⟨by decide, by decide, (h.1 (simple zeroStream 7) (by simp)).1,
    h.2.2.2.1.trans (by decide), h.2.2.1, h.2.2.2.2 (by decide)⟩

/-- C8: for every negative `N`, each of the six generators returns normally
with empty points and labels while the stored count field keeps the
negative `N` unchanged. -/
theorem C8_negative_N (c s : ℚ → ℚ) (r : ℕ → ℚ) (N : ℤ) (hN : N < 0) :
    ∀ G ∈ [simple r N, diag r N, split r N, xor r N, circle r N, spiral c s r N],
      G.X = [] ∧ G.y = [] ∧ G.N = N := by
  have hz : N.toNat = 0 := by omega
  have hmk : make_pts r N = [] := by
    simp [make_pts, hz]
  have hfz : (N.fdiv 2).toNat = 0 := by
    have : N.fdiv 2 < 0 := Int.fdiv_neg' hN (by norm_num)
    omega
  intro G hG
  simp only [List.mem_cons, List.not_mem_nil, or_false] at hG
  rcases hG with rfl | rfl | rfl | rfl | rfl | rfl
  · exact ⟨hmk, by simp [simple, hmk], rfl⟩
  · exact ⟨hmk, by simp [diag, hmk], rfl⟩
  · exact ⟨hmk, by simp [split, hmk], rfl⟩
  · exact ⟨hmk, by simp [xor, hmk], rfl⟩
  · exact ⟨hmk, by simp [circle, hmk], rfl⟩
  · exact ⟨by simp [spiral, hfz], by simp [spiral, hfz], rfl⟩

/-- Witness for C8 at `N = -1`. -/
theorem C8_negative_N_witness :
    ((-1 : ℤ) < 0) ∧
    (simple zeroStream (-1)).X = [] ∧ (simple zeroStream (-1)).y = [] ∧
    (spiral zeroFun zeroFun zeroStream (-1)).X = [] ∧
    (spiral zeroFun zeroFun zeroStream (-1)).y = [] ∧
    (spiral zeroFun zeroFun zeroStream (-1)).N = -1 := by
  have h := C8_negative_N zeroFun zeroFun zeroStream (-1) (by decide)
  have h1 := h (simple zeroStream (-1)) (by simp)
  have h2 := h (spiral zeroFun zeroFun zeroStream (-1)) (by simp)
  exact ⟨by decide, h1.1, h1.2.1, h2.1, h2.2.1, h2.2.2⟩

/-- C3: for every `N ≥ 0` with `half = N // 2`, `spiral N` produces exactly
`2 * half` points: arm A is `(sx(10*i/half) + 0.5, sy(10*i/half) + 0.5)` and
arm B is `(sy(-10*i/half) + 0.5, sx(-10*i/half) + 0.5)`, both for
`i ∈ [5, 5 + half)`, with labels `half` zeros followed by `half` ones; in
particular `N = 10` gives 10 points with labels `[0,0,0,0,0,1,1,1,1,1]` and
`N = 11` gives 10 points (one dropped) with the same labels. -/
theorem C3_spiral_structure (c s : ℚ → ℚ) (r : ℕ → ℚ) (N : ℤ) (hN : 0 ≤ N) :
    (spiral c s r N).X.length = 2 * (N.fdiv 2).toNat ∧
    (spiral c s r N).X =
      ((List.range (N.fdiv 2).toNat).map (fun j =>
        (sx c (10.0 * (((5 + j : ℕ) : ℚ) / (((N.fdiv 2).toNat : ℕ) : ℚ))) + 0.5,
         sy s (10.0 * (((5 + j : ℕ) : ℚ) / (((N.fdiv 2).toNat : ℕ) : ℚ))) + 0.5)) ++
       (List.range (N.fdiv 2).toNat).map (fun j =>
        (sy s (-10.0 * (((5 + j : ℕ) : ℚ) / (((N.fdiv 2).toNat : ℕ) : ℚ))) + 0.5,
         sx c (-10.0 * (((5 + j : ℕ) : ℚ) / (((N.fdiv 2).toNat : ℕ) : ℚ))) + 0.5))) ∧
    (spiral c s r N).y =
      List.replicate (N.fdiv 2).toNat 0 ++ List.replicate (N.fdiv 2).toNat 1 ∧
    (N = 10 → (N.fdiv 2).toNat = 5 ∧ (spiral c s r N).X.length = 10 ∧
      (spiral c s r N).y = [0, 0, 0, 0, 0, 1, 1, 1, 1, 1]) ∧
    (N = 11 → (N.fdiv 2).toNat = 5 ∧ (spiral c s r N).X.length = 10 ∧
      (spiral c s r N).y = [0, 0, 0, 0, 0, 1, 1, 1, 1, 1]) := by
  have h2 : 0 ≤ N.fdiv 2 := Int.fdiv_nonneg hN (by norm_num)
  have hc : ((N.fdiv 2 : ℤ) : ℚ) = ((N.fdiv 2).toNat : ℚ) := by
    exact_mod_cast congrArg (fun z : ℤ => (z : ℚ)) (Int.toNat_of_nonneg h2).symm
  have hlen : (spiral c s r N).X.length = 2 * (N.fdiv 2).toNat := by
    simp [spiral]; omega
  refine ⟨hlen, ?_, rfl, ?_, ?_⟩
  · show (spiral c s r N).X = _
    simp only [spiral, hc]
  · rintro rfl
    exact ⟨by decide, hlen.trans (by decide), rfl⟩
  · rintro rfl
    exact ⟨by decide, hlen.trans (by decide), rfl⟩

/-- Witness for C3 at `N = 11` (odd: one point dropped). -/
theorem C3_spiral_structure_witness :
    ((0 : ℤ) ≤ 11) ∧
    (spiral zeroFun zeroFun zeroStream 11).X.length = 10 ∧
    (spiral zeroFun zeroFun zeroStream 11).y = [0, 0, 0, 0, 0, 1, 1, 1, 1, 1] := by
  have h := C3_spiral_structure zeroFun zeroFun zeroStream 11 (by decide)
  exact ⟨by decide, (h.2.2.2.2 rfl).2.1, (h.2.2.2.2 rfl).2.2⟩

/-- C5: the registry maps exactly the six names Simple, Diag, Split, Xor,
Circle, Spiral to their generators, and looking up any other name (e.g.
"Unknown") returns no entry (the not-found error). -/
theorem C5_registry_contents (c s : ℚ → ℚ) :
    datasets c s "Simple" = some simple ∧
    datasets c s "Diag" = some diag ∧
    datasets c s "Split" = some split ∧
    datasets c s "Xor" = some xor ∧
    datasets c s "Circle" = some circle ∧
    datasets c s "Spiral" = some (spiral c s) ∧
    datasets c s "Unknown" = none ∧
    ∀ name : String, name ≠ "Simple" → name ≠ "Diag" → name ≠ "Split" →
      name ≠ "Xor" → name ≠ "Circle" → name ≠ "Spiral" →
      datasets c s name = none := by
  refine ⟨rfl, rfl, rfl, rfl, rfl, rfl, rfl, ?_⟩
  intro name h1 h2 h3 h4 h5 h6
  simp [datasets, h1, h2, h3, h4, h5, h6]

/-- Witness for C5: unknown names "Unknown" and "NotThere" are not found. -/
theorem C5_registry_contents_witness :
    datasets zeroFun zeroFun "Unknown" = none ∧
    datasets zeroFun zeroFun "NotThere" = none := by
  have h := C5_registry_contents zeroFun zeroFun
  exact ⟨h.2.2.2.2.2.2.1,
    h.2.2.2.2.2.2.2 "NotThere" (by decide) (by decide) (by decide)
      (by decide) (by decide) (by decide)⟩

/-- C10: all five labelling predicates use strict comparisons, so a point
exactly on a rule's boundary receives label 0: `simple` at `x1 = 0.5`,
`diag` at `x1 = x2`, `split` at `x1 = 0.2` or `x1 = 0.8`, `xor` at
`x1 = 0.5` or `x2 = 0.5`, and `circle` at
`(x1-0.5)^2 + (x2-0.5)^2 = 0.1` all yield 0. -/
theorem C10_boundaries_label_zero :
    (∀ x2 : ℚ, simple_label (0.5, x2) = 0) ∧
    (∀ x : ℚ, diag_label (x, x) = 0) ∧
    (∀ x2 : ℚ, split_label (0.2, x2) = 0) ∧
    (∀ x2 : ℚ, split_label (0.8, x2) = 0) ∧
    (∀ x2 : ℚ, xor_label (0.5, x2) = 0) ∧
    (∀ x1 : ℚ, xor_label (x1, 0.5) = 0) ∧
    (∀ p : Point, (p.1 - 0.5) * (p.1 - 0.5) + (p.2 - 0.5) * (p.2 - 0.5) = 0.1 →
      circle_label p = 0) := by
  refine ⟨?_, ?_, ?_, ?_, ?_, ?_, ?_⟩
  · intro x2; norm_num [simple_label]
  · intro x; norm_num [diag_label]
  · intro x2; norm_num [split_label]
  · intro x2; norm_num [split_label]
  · intro x2; norm_num [xor_label]
  · intro x1; norm_num [xor_label]
  · intro p hp
    simp only [circle_label]
    rw [hp]
    simp

/-- Witness for C10 at concrete boundary points, with the circle boundary
instantiated at `(0.8, 0.6)` (squared distance exactly `0.1`). -/
theorem C10_boundaries_label_zero_witness :
    simple_label (0.5, 0.9) = 0 ∧ diag_label (0.3, 0.3) = 0 ∧
    split_label (0.2, 0.1) = 0 ∧ split_label (0.8, 0.1) = 0 ∧
    xor_label (0.5, 0.9) = 0 ∧ xor_label (0.9, 0.5) = 0 ∧
    circle_label (0.8, 0.6) = 0 := by
  have h := C10_boundaries_label_zero
  exact ⟨h.1 0.9, h.2.1 0.3, h.2.2.1 0.1, h.2.2.2.1 0.1, h.2.2.2.2.1 0.9,
    h.2.2.2.2.2.1 0.9, h.2.2.2.2.2.2 (0.8, 0.6) (by norm_num)⟩

end Minitorch
